import Mathlib

/-!
Verification of the ReBin Pro backend request/response pipeline.

This file gives a shallow embedding of the backend's pure request-handling
logic (src/backend/routes/chatbot.py, src/backend/routes/infer.py,
src/backend/utils/openrouter_client.py, src/backend/utils/elevenlabs_client.py)
and proves or refutes the spec's claims about it.

External HTTP calls are modelled by passing the call's outcome (transport
failure, or a status code together with the already-decoded body) as an
explicit parameter; everything downstream of the call is translated
faithfully from the Python source.  Python exceptions are modelled with
an explicit error type threaded through Except.  JSON numbers are modelled
as rationals.
-/

/-- Model of the characters removed by the regex `[<>"\']` in
`sanitize_text` (src/backend/routes/chatbot.py line 36):
angle brackets, double quote (code 34) and single quote (code 39). -/
def badChar (c : Char) : Bool :=
  c = '<' || c = '>' || c = Char.ofNat 34 || c = Char.ofNat 39

/-- Model of Python str.strip()'s notion of whitespace, restricted to the
ASCII whitespace characters: space, tab (9), newline (10), vertical tab
(11), form feed (12), carriage return (13). -/
def isPyWs (c : Char) : Bool :=
  c = ' ' || c = Char.ofNat 9 || c = Char.ofNat 10 ||
  c = Char.ofNat 11 || c = Char.ofNat 12 || c = Char.ofNat 13

/-- Model of Python str.strip() on a character list: drop leading and
trailing whitespace. -/
def stripList (cs : List Char) : List Char :=
  ((cs.dropWhile isPyWs).reverse.dropWhile isPyWs).reverse

/-- `sanitize_text` (src/backend/routes/chatbot.py lines 31-38):
remove the characters matched by `[<>"\']`, truncate to 1000 characters,
then strip surrounding whitespace. -/
def sanitizeList (cs : List Char) : List Char :=
  stripList ((cs.filter (fun c => !badChar c)).take 1000)

/-- String-level `sanitize_text` from src/backend/routes/chatbot.py. -/
def sanitize_text (s : String) : String :=
  String.mk (sanitizeList s.data)

/-- ItemDecision (src/backend/schemas.py lines 26-30).  All four fields are
plain pydantic `str` fields; the `bin` field carries only the descriptive
text "recycling | compost | trash", no validator. -/
structure ItemDecision where
  label : String
  bin : String
  explanation : String
  eco_tip : String
deriving DecidableEq, Repr

/-- ItemDetection (src/backend/schemas.py lines 6-8).  The `confidence`
field is a pydantic float constrained by ge=0.0, le=1.0; floats are
modelled as rationals.  Construction goes through `mkItemDetection`,
which models the pydantic range validation. -/
structure ItemDetection where
  label : String
  confidence : ℚ
deriving DecidableEq, Repr

/-- Model of pydantic validation when constructing an ItemDetection:
a confidence outside [0, 1] raises ValidationError (a ValueError
subclass in both pydantic v1 and v2). -/
def mkItemDetection (label : String) (confidence : ℚ) : Option ItemDetection :=
  if 0 ≤ confidence ∧ confidence ≤ 1 then some ⟨label, confidence⟩ else none

/-- JSON values, as produced by Python's json.loads / httpx Response.json. -/
inductive JVal where
  | jnull
  | jbool (b : Bool)
  | jnum (q : ℚ)
  | jstr (s : String)
  | jarr (xs : List JVal)
  | jobj (kvs : List (String × JVal))
deriving Repr

/-- Is this JSON value a mapping (a Python dict)? -/
def JVal.isObj : JVal → Bool
  | .jobj _ => true
  | _ => false

/-- Model of Python dict.get(key, default) on a JSON object.  json.loads
keeps the last occurrence of a duplicated key, so lookup scans from the
back. -/
def jGet (kvs : List (String × JVal)) (key : String) (dflt : JVal) : JVal :=
  match kvs.reverse.find? (fun p => p.1 = key) with
  | some p => p.2
  | none => dflt

/-- Model of Python truthiness (`bool(v)`) on JSON values: None, False,
zero, and empty containers/strings are falsy. -/
def pyTruthy : JVal → Bool
  | .jnull => false
  | .jbool b => b
  | .jnum q => q ≠ 0
  | .jstr s => s ≠ ""
  | .jarr xs => !xs.isEmpty
  | .jobj kvs => !kvs.isEmpty

/-- Model of Python str() on JSON values.  Only the rendering of string
values (the identity) is relied on by any claim; the rendering of the
other constructors is an unexercised approximation (Python renders
numbers, lists and dicts with its own repr rules). -/
def pyStr : JVal → String
  | .jstr s => s
  | .jnull => "None"
  | .jbool true => "True"
  | .jbool false => "False"
  | .jnum q => if q.den = 1 then toString q.num else toString q.num ++ "/" ++ toString q.den
  | .jarr _ => "[...]"
  | .jobj _ => "\x7b...\x7d"

/-- Errors a modelled Python expression can raise. -/
inductive PyErr where
  | valueError
  | typeError
  | keyError
  | indexError
  | attributeError
  | jsonDecodeError
  | httpExc (status : Nat) (error : String) (message : String)
deriving DecidableEq, Repr

/-- An HTTPException detail as raised by the backend:
status code plus the {error, message} detail body. -/
structure HttpFail where
  status : Nat
  error : String
  message : String
deriving DecidableEq, Repr

/-- Model of Python's `key in v` for a string key: dicts test key
membership, lists test element membership, strings test substring;
other values raise TypeError. -/
def pyContains (v : JVal) (key : String) : Except PyErr Bool :=
  match v with
  | .jobj kvs => .ok (kvs.any (fun p => p.1 = key))
  | .jarr xs => .ok (xs.any (fun x => match x with | .jstr s => s = key | _ => false))
  | .jstr s => .ok (key.isPrefixOf s || (s.splitOn key).length > 1)
  | _ => .error .typeError

/-- Model of Python's `v[key]` for a string key: dict lookup (KeyError
when absent); lists and strings reject string subscripts with TypeError. -/
def pySubscript (v : JVal) (key : String) : Except PyErr JVal :=
  match v with
  | .jobj kvs =>
    match kvs.reverse.find? (fun p => p.1 = key) with
    | some p => .ok p.2
    | none => .error .keyError
  | _ => .error .typeError

/-- Model of Python's `v[i]` for a nonnegative integer index: list
indexing (IndexError when out of range), string indexing (one-character
string), dicts raise KeyError for a missing integer key (JSON object keys
are strings), other values TypeError. -/
def pyIndex (v : JVal) (i : Nat) : Except PyErr JVal :=
  match v with
  | .jarr xs =>
    match xs.get? i with
    | some x => .ok x
    | none => .error .indexError
  | .jstr s =>
    match s.data.get? i with
    | some c => .ok (.jstr (String.mk [c]))
    | none => .error .indexError
  | .jobj _ => .error .keyError
  | _ => .error .typeError

/-! ## A model of Python json.loads

A small JSON parser over character lists, used to model json.loads on the
message content returned by the reasoning endpoint
(src/backend/utils/openrouter_client.py line 93).  Recursion is bounded by
explicit fuel; `jsonLoads` supplies enough fuel for any input of the given
length.  Unexercised corners of Python's grammar (leading zeros,
NaN/Infinity literals) are not distinguished. -/

/-- The double-quote character. -/
def qmChar : Char := Char.ofNat 34

/-- The backslash character. -/
def bslChar : Char := Char.ofNat 92

/-- The opening-brace character. -/
def lbrChar : Char := Char.ofNat 123

/-- The closing-brace character. -/
def rbrChar : Char := Char.ofNat 125

/-- Skip JSON whitespace. -/
def jSkipWs : List Char → List Char
  | c :: cs =>
    if c = ' ' || c = Char.ofNat 9 || c = Char.ofNat 10 || c = Char.ofNat 13
    then jSkipWs cs else c :: cs
  | [] => []

/-- Numeric value of a hex digit. -/
def hexVal (c : Char) : Option Nat :=
  if c.isDigit then some (c.toNat - 48)
  else if 'a' ≤ c ∧ c ≤ 'f' then some (c.toNat - 87)
  else if 'A' ≤ c ∧ c ≤ 'F' then some (c.toNat - 55)
  else none

/-- Decimal value of a digit list. -/
def digitsToNat (ds : List Char) : Nat :=
  ds.foldl (fun a c => a * 10 + (c.toNat - 48)) 0

/-- Parse the characters of a JSON string after the opening quote,
handling the escape sequences; returns the string contents and the rest. -/
def jParseStrChars : Nat → List Char → Option (List Char × List Char)
  | 0, _ => none
  | fuel + 1, cs =>
    match cs with
    | [] => none
    | c :: rest =>
      if c = qmChar then some ([], rest)
      else if c = bslChar then
        match rest with
        | [] => none
        | e :: rest2 =>
          let cont (ch : Char) (rs : List Char) : Option (List Char × List Char) :=
            match jParseStrChars fuel rs with
            | some (tl, r) => some (ch :: tl, r)
            | none => none
          if e = qmChar then cont qmChar rest2
          else if e = bslChar then cont bslChar rest2
          else if e = '/' then cont '/' rest2
          else if e = 'n' then cont (Char.ofNat 10) rest2
          else if e = 't' then cont (Char.ofNat 9) rest2
          else if e = 'r' then cont (Char.ofNat 13) rest2
          else if e = 'b' then cont (Char.ofNat 8) rest2
          else if e = 'f' then cont (Char.ofNat 12) rest2
          else if e = 'u' then
            match rest2 with
            | h1 :: h2 :: h3 :: h4 :: rest3 =>
              match hexVal h1, hexVal h2, hexVal h3, hexVal h4 with
              | some a, some b, some c3, some d =>
                cont (Char.ofNat (((a * 16 + b) * 16 + c3) * 16 + d)) rest3
              | _, _, _, _ => none
            | _ => none
          else none
      else
        match jParseStrChars fuel rest with
        | some (tl, r) => some (c :: tl, r)
        | none => none

/-- Parse a JSON number (sign, integer part, optional fraction, optional
exponent) as a rational.  Returns the value and the rest. -/
def jParseNum (cs : List Char) : Option (ℚ × List Char) :=
  let (sign, cs1) : ℚ × List Char :=
    match cs with
    | c :: rest => if c = '-' then (-1, rest) else (1, cs)
    | [] => (1, [])
  let intDs := cs1.takeWhile Char.isDigit
  let cs2 := cs1.dropWhile Char.isDigit
  if intDs.isEmpty then none
  else
    let intPart : ℚ := (digitsToNat intDs : ℚ)
    let (fracPart, cs3) : ℚ × List Char :=
      match cs2 with
      | c :: rest =>
        if c = '.' then
          let fracDs := rest.takeWhile Char.isDigit
          ((digitsToNat fracDs : ℚ) / ((10 : ℚ) ^ fracDs.length), rest.dropWhile Char.isDigit)
        else (0, cs2)
      | [] => (0, cs2)
    match cs3 with
    | c :: rest =>
      if c = 'e' || c = 'E' then
        let (esign, rest2) : Bool × List Char :=
          match rest with
          | d :: r2 => if d = '-' then (true, r2) else if d = '+' then (false, r2) else (false, rest)
          | [] => (false, rest)
        let expDs := rest2.takeWhile Char.isDigit
        if expDs.isEmpty then none
        else
          let e := digitsToNat expDs
          let base := sign * (intPart + fracPart)
          let v := if esign then base / ((10 : ℚ) ^ e) else base * ((10 : ℚ) ^ e)
          some (v, rest2.dropWhile Char.isDigit)
      else some (sign * (intPart + fracPart), cs3)
    | [] => some (sign * (intPart + fracPart), cs3)

mutual

/-- Parse one JSON value; returns the value and the unconsumed rest. -/
def jParseVal : Nat → List Char → Option (JVal × List Char)
  | 0, _ => none
  | fuel + 1, cs =>
    match jSkipWs cs with
    | [] => none
    | c :: rest =>
      if c = 'n' then
        if rest.take 3 = ['u', 'l', 'l'] then some (.jnull, rest.drop 3) else none
      else if c = 't' then
        if rest.take 3 = ['r', 'u', 'e'] then some (.jbool true, rest.drop 3) else none
      else if c = 'f' then
        if rest.take 4 = ['a', 'l', 's', 'e'] then some (.jbool false, rest.drop 4) else none
      else if c = qmChar then
        match jParseStrChars (rest.length + 1) rest with
        | some (content, r) => some (.jstr (String.mk content), r)
        | none => none
      else if c = '[' then
        match jSkipWs rest with
        | d :: rest2 =>
          if d = ']' then some (.jarr [], rest2)
          else
            match jParseArrItems fuel rest with
            | some (xs, r) => some (.jarr xs, r)
            | none => none
        | [] => none
      else if c = lbrChar then
        match jSkipWs rest with
        | d :: rest2 =>
          if d = rbrChar then some (.jobj [], rest2)
          else
            match jParseObjItems fuel rest with
            | some (kvs, r) => some (.jobj kvs, r)
            | none => none
        | [] => none
      else if c = '-' || c.isDigit then
        match jParseNum (c :: rest) with
        | some (q, r) => some (.jnum q, r)
        | none => none
      else none

/-- Parse the comma-separated items of a JSON array, up to and including
the closing bracket. -/
def jParseArrItems : Nat → List Char → Option (List JVal × List Char)
  | 0, _ => none
  | fuel + 1, cs =>
    match jParseVal fuel cs with
    | some (v, rest) =>
      match jSkipWs rest with
      | c :: rest2 =>
        if c = ',' then
          match jParseArrItems fuel rest2 with
          | some (xs, r) => some (v :: xs, r)
          | none => none
        else if c = ']' then some ([v], rest2)
        else none
      | [] => none
    | none => none

/-- Parse the comma-separated key-value pairs of a JSON object, up to and
including the closing brace. -/
def jParseObjItems : Nat → List Char → Option (List (String × JVal) × List Char)
  | 0, _ => none
  | fuel + 1, cs =>
    match jSkipWs cs with
    | c :: rest =>
      if c = qmChar then
        match jParseStrChars (rest.length + 1) rest with
        | some (kcs, rest2) =>
          match jSkipWs rest2 with
          | d :: rest3 =>
            if d = ':' then
              match jParseVal fuel rest3 with
              | some (v, rest4) =>
                match jSkipWs rest4 with
                | e :: rest5 =>
                  if e = ',' then
                    match jParseObjItems fuel rest5 with
                    | some (kvs, r) => some ((String.mk kcs, v) :: kvs, r)
                    | none => none
                  else if e = rbrChar then some ([(String.mk kcs, v)], rest5)
                  else none
                | [] => none
              | none => none
            else none
          | [] => none
        | none => none
      else none
    | [] => none

end

/-- Model of Python json.loads on a string: parse one JSON value and
require only whitespace after it. -/
def jsonLoads (s : String) : Option JVal :=
  match jParseVal (2 * s.data.length + 8) s.data with
  | some (v, rest) => if jSkipWs rest = [] then some v else none
  | none => none

/-! ## Reasoning Gateway (src/backend/utils/openrouter_client.py) -/

/-- Model of Python float() applied to a JSON value: numbers and booleans
coerce, strings are parsed as decimal numerals (ValueError on failure),
None/lists/dicts raise TypeError. -/
def pyFloat (v : JVal) : Except PyErr ℚ :=
  match v with
  | .jnum q => .ok q
  | .jbool b => .ok (if b then 1 else 0)
  | .jstr s =>
    let cs := (s.data.dropWhile isPyWs).reverse.dropWhile isPyWs |>.reverse
    match jParseNum cs with
    | some (q, []) => .ok q
    | _ => .error .valueError
  | _ => .error .typeError

/-- The per-element loop of get_reasoned_decisions
(src/backend/utils/openrouter_client.py lines 100-116): elements that are
not mappings are skipped with a warning; every mapping is turned into an
ItemDecision whose four fields are str() of the element's get() with
default "" (pydantic construction of four plain str fields from str()
results cannot fail, so the except-continue never fires for mappings). -/
def collectDecisions : List JVal → List ItemDecision
  | [] => []
  | obj :: rest =>
    match obj with
    | .jobj kvs =>
      { label := pyStr (jGet kvs "label" (.jstr ""))
        bin := pyStr (jGet kvs "bin" (.jstr ""))
        explanation := pyStr (jGet kvs "explanation" (.jstr ""))
        eco_tip := pyStr (jGet kvs "eco_tip" (.jstr "")) } :: collectDecisions rest
    | _ => collectDecisions rest

/-- The synthesized fallback decision
(src/backend/utils/openrouter_client.py lines 121-128). -/
def fallbackDecision : ItemDecision :=
  { label := "unknown"
    bin := "trash"
    explanation := "Unable to determine proper disposal method"
    eco_tip := "Please check local recycling guidelines" }

/-- Lines 118-128 of src/backend/utils/openrouter_client.py: if no valid
decisions were parsed, return the single fallback decision. -/
def resultsWithFallback (xs : List JVal) : List ItemDecision :=
  let results := collectDecisions xs
  if results = [] then [fallbackDecision] else results

/-- Model of `json.loads(content)` where content came out of a JSON body:
a string is parsed (JSONDecodeError on failure); any non-string content
raises TypeError. -/
def pyJsonLoads (content : JVal) : Except PyErr JVal :=
  match content with
  | .jstr s =>
    match jsonLoads s with
    | some v => .ok v
    | none => .error .jsonDecodeError
  | _ => .error .typeError

/-- The body of the big `try` in get_reasoned_decisions
(src/backend/utils/openrouter_client.py lines 87-131), which can raise:
check that "choices" is present and truthy (else raise an HTTPException
502/reasoning_error), extract choices[0]["message"]["content"], parse it
with json.loads, require a list (else HTTPException 502/parse_error),
then run the per-element loop with the fallback. -/
def reasoningTryBody (data : JVal) : Except PyErr (List ItemDecision) :=
  match pyContains data "choices" with
  | .error e => .error e
  | .ok present =>
    if !present then
      .error (.httpExc 502 "reasoning_error" "Invalid response structure from reasoning service")
    else
      match pySubscript data "choices" with
      | .error e => .error e
      | .ok choices =>
        if !pyTruthy choices then
          .error (.httpExc 502 "reasoning_error" "Invalid response structure from reasoning service")
        else
          match pyIndex choices 0 with
          | .error e => .error e
          | .ok c0 =>
            match pySubscript c0 "message" with
            | .error e => .error e
            | .ok msg =>
              match pySubscript msg "content" with
              | .error e => .error e
              | .ok content =>
                match pyJsonLoads content with
                | .error e => .error e
                | .ok parsed =>
                  match parsed with
                  | .jarr xs => .ok (resultsWithFallback xs)
                  | _ => .error (.httpExc 502 "parse_error" "Invalid response format from reasoning service")

/-- Lines 87-138 of src/backend/utils/openrouter_client.py: the `try`
body above with its two handlers.  `except json.JSONDecodeError` maps to
502/parse_error "Invalid JSON response from reasoning service"; the
following blanket `except Exception` catches every other exception —
including the HTTPExceptions raised inside the try — and re-raises
502/parse_error "Bad reasoning response". -/
def parseReasoning (data : JVal) : Except HttpFail (List ItemDecision) :=
  match reasoningTryBody data with
  | .ok r => .ok r
  | .error .jsonDecodeError =>
    .error ⟨502, "parse_error", "Invalid JSON response from reasoning service"⟩
  | .error _ =>
    .error ⟨502, "parse_error", "Bad reasoning response"⟩

/-- Outcome of the outbound OpenRouter HTTP call: a transport-level
exception, or a response with a status code and the result of
resp.json() (none when the body is not valid JSON). -/
inductive ORCallOutcome where
  | transportErr
  | resp (status : Nat) (body : Option JVal)

/-- get_reasoned_decisions (src/backend/utils/openrouter_client.py lines
19-138).  `items`, `zipCode` and the policy map shape only the outbound
prompt, which is abstracted into `outcome`; they do not affect the
result.  Missing API key raises 500/config; transport failure
503/reasoning_error; then the status ladder 401/429/500/non-200; then a
non-JSON body 502/reasoning_error; then the parsing stage. -/
def get_reasoned_decisions (items : List String) (zipCode : Option String)
    (keyPresent : Bool) (outcome : ORCallOutcome) :
    Except HttpFail (List ItemDecision) :=
  if !keyPresent then .error ⟨500, "config", "OPENROUTER_API_KEY missing"⟩
  else
    match outcome with
    | .transportErr => .error ⟨503, "reasoning_error", "Reasoning service unavailable"⟩
    | .resp status body =>
      if status = 401 then .error ⟨500, "config_error", "Invalid API key for reasoning service"⟩
      else if status = 429 then .error ⟨429, "rate_limit", "Too many requests to reasoning service"⟩
      else if status = 500 then .error ⟨502, "reasoning_error", "Reasoning service temporarily unavailable"⟩
      else if status ≠ 200 then .error ⟨502, "reasoning_error", "Reasoning API failed"⟩
      else
        match body with
        | none => .error ⟨502, "reasoning_error", "Invalid response from reasoning service"⟩
        | some data => parseReasoning data

/-- Test-harness shape of a successful OpenRouter body whose single
choice carries the given message content:
\x7b"choices": [\x7b"message": \x7b"content": content\x7d\x7d]\x7d. -/
def mkORData (content : JVal) : JVal :=
  .jobj [("choices", .jarr [.jobj [("message", .jobj [("content", content)])]])]

/-- The three enumerated bins (spec section 3; the descriptive text of
ItemDecision.bin in src/backend/schemas.py line 28). -/
def enumeratedBins : List String := ["recycling", "compost", "trash"]

/-- Claim-side description of how a mapping element is turned into a
decision: each of the four keys is looked up with default "" and
stringified.  (Returns a dummy on non-mappings, which the claim theorem
never applies it to.) -/
def decisionFromMapping (v : JVal) : ItemDecision :=
  match v with
  | .jobj kvs =>
    { label := pyStr (jGet kvs "label" (.jstr ""))
      bin := pyStr (jGet kvs "bin" (.jstr ""))
      explanation := pyStr (jGet kvs "explanation" (.jstr ""))
      eco_tip := pyStr (jGet kvs "eco_tip" (.jstr "")) }
  | _ => { label := "", bin := "", explanation := "", eco_tip := "" }

/-! ## Detection Gateway (src/backend/routes/infer.py) -/

/-- One iteration of the detection loop (src/backend/routes/infer.py
lines 87-97): label = str(obj.get("label", "unknown")),
confidence = float(obj.get("confidence", 0.0)), then pydantic
construction.  A ValueError or TypeError is caught by the loop
(the object is skipped); calling .get on a non-dict raises
AttributeError, which the loop does not catch. -/
def parseDetection (obj : JVal) : Except PyErr ItemDetection :=
  match obj with
  | .jobj kvs =>
    let label := pyStr (jGet kvs "label" (.jstr "unknown"))
    match pyFloat (jGet kvs "confidence" (.jnum 0)) with
    | .error e => .error e
    | .ok confidence =>
      match mkItemDetection label confidence with
      | some d => .ok d
      | none => .error .valueError
  | _ => .error .attributeError

/-- The detection loop with its per-element `except (ValueError,
TypeError): continue` (src/backend/routes/infer.py lines 87-97).  Any
other exception escapes the loop. -/
def collectDetections : List JVal → Except PyErr (List ItemDetection)
  | [] => .ok []
  | obj :: rest =>
    match parseDetection obj with
    | .ok d =>
      match collectDetections rest with
      | .ok ds => .ok (d :: ds)
      | .error e => .error e
    | .error .valueError => collectDetections rest
    | .error .typeError => collectDetections rest
    | .error e => .error e

/-- The body-processing part of the infer route
(src/backend/routes/infer.py lines 79-108) applied to the decoded JSON
body `data`: objects = data.get("objects", []) (AttributeError on a
non-dict, reaching the blanket handler as HTTP 500/server_error); a
non-list objects value raises HTTPException 502/cv_error, which the
route's `except HTTPException: raise` re-raises unchanged; an exception
escaping the loop reaches the blanket `except Exception` and becomes
HTTP 500/server_error. -/
def inferFromData (data : JVal) : Except HttpFail (List ItemDetection) :=
  match data with
  | .jobj kvs =>
    match jGet kvs "objects" (.jarr []) with
    | .jarr xs =>
      match collectDetections xs with
      | .ok items => .ok items
      | .error _ =>
        .error ⟨500, "server_error", "Internal server error during image processing"⟩
    | _ => .error ⟨502, "cv_error", "Invalid response format from computer vision service"⟩
  | _ => .error ⟨500, "server_error", "Internal server error during image processing"⟩

/-! ## Speech Gateway (src/backend/utils/elevenlabs_client.py) -/

/-- The base64 alphabet (RFC 4648), as used by Python base64.b64encode. -/
def b64Alphabet : List Char :=
  "ABCDEFGHIJKLMNOPQRSTUVWXYZabcdefghijklmnopqrstuvwxyz0123456789+/".data

/-- The base64 character for a 6-bit group. -/
def b64Char (n : Nat) : Char := b64Alphabet.getD n 'A'

/-- Model of Python base64.b64encode on a byte list (bytes as naturals,
reduced mod 256 where they are packed into 24-bit groups). -/
def base64Encode : List Nat → String
  | [] => ""
  | [a] =>
    let n := (a % 256) * 65536
    String.mk [b64Char (n / 262144), b64Char (n / 4096 % 64)] ++ "=="
  | [a, b] =>
    let n := (a % 256) * 65536 + (b % 256) * 256
    String.mk [b64Char (n / 262144), b64Char (n / 4096 % 64), b64Char (n / 64 % 64)] ++ "="
  | a :: b :: c :: rest =>
    let n := (a % 256) * 65536 + (b % 256) * 256 + c % 256
    String.mk [b64Char (n / 262144), b64Char (n / 4096 % 64), b64Char (n / 64 % 64), b64Char (n % 64)]
      ++ base64Encode rest

/-- Outcome of the outbound ElevenLabs TTS call: a transport-level
exception, or a response with a status code and raw byte content. -/
inductive TtsOutcome where
  | transportErr
  | resp (status : Nat) (content : List Nat)

/-- The three voice-personality identifiers and their ElevenLabs voice
ids (src/backend/utils/elevenlabs_client.py lines 14-62; the
voice_settings and avatar blocks shape only the outbound request and the
static /voices /avatars endpoints, not the synthesis result). -/
def voiceIdOf (personality : String) : String :=
  if personality = "enthusiastic" then "y3H6zY6KvCH2pEuQjmv8"
  else if personality = "educational" then "onwK4e9ZLuTAKqWW03F9"
  else "s3TPKV1kjDlVtZbl4Ksh"

/-- get_tts_audio_data (src/backend/utils/elevenlabs_client.py lines
66-113): empty API key → None; transport exception → None (logged);
non-200 status → None (logged); 200 → the raw response bytes.  `text`
and `personality` shape only the outbound request, abstracted into
`outcome`. -/
def get_tts_audio_data (text : String) (personality : String)
    (keyPresent : Bool) (outcome : TtsOutcome) : Option (List Nat) :=
  if !keyPresent then none
  else
    let _voiceId := voiceIdOf personality
    match outcome with
    | .transportErr => none
    | .resp status content => if status ≠ 200 then none else some content

/-- get_tts_base64 (src/backend/utils/elevenlabs_client.py lines
116-139): None propagates; otherwise base64-encode the audio bytes and
wrap them in a data:audio/mpeg;base64 URL (the encode of a bytes value
cannot raise, so the surrounding try/except never fires). -/
def get_tts_base64 (text : String) (personality : String)
    (keyPresent : Bool) (outcome : TtsOutcome) : Option String :=
  match get_tts_audio_data text personality keyPresent outcome with
  | none => none
  | some audio => some ("data:audio/mpeg;base64," ++ base64Encode audio)

/-! ## Narration Composer and speak endpoint (src/backend/routes/chatbot.py) -/

/-- Model of Python str.title(): uppercase a letter that starts a word
(follows a non-letter), lowercase the other letters. -/
def pyTitleGo : List Char → Bool → List Char
  | [], _ => []
  | c :: cs, prevAlpha =>
    (if c.isAlpha then (if prevAlpha then c.toLower else c.toUpper) else c)
      :: pyTitleGo cs c.isAlpha

/-- Model of Python str.title() on a string. -/
def pyTitle (s : String) : String := String.mk (pyTitleGo s.data false)

/-- The bin_name computation duplicated in generate_conversational_text
and generate_fallback_text (src/backend/routes/chatbot.py lines 98-105
and 130-136): title-case bin.replace("_", " "), then override the three
enumerated bins with their lowercase names. -/
def binDisplay (bin : String) : String :=
  let bn := pyTitle (String.mk (bin.data.map (fun c => if c = '_' then ' ' else c)))
  if bin = "recycling" then "recycling"
  else if bin = "compost" then "compost"
  else if bin = "trash" then "trash"
  else bn

/-- The per-decision segments: "<label>: <bin name> bin. <explanation>",
followed by "Eco tip: <eco_tip>" when the eco_tip is non-empty (Python
truthiness of the string).  This is both the loop body of
generate_fallback_text (src/backend/routes/chatbot.py lines 129-141) and
the segment list named by the spec's fallback_text contract. -/
def specFallbackSegments (decisions : List ItemDecision) : List String :=
  decisions.flatMap (fun d =>
    let seg := d.label ++ ": " ++ binDisplay d.bin ++ " bin. " ++ d.explanation
    if d.eco_tip ≠ "" then [seg, "Eco tip: " ++ d.eco_tip] else [seg])

/-- generate_fallback_text (src/backend/routes/chatbot.py lines 122-144):
fixed message for the empty list, otherwise the " | "-join of the
per-decision segments, passed through sanitize_text. -/
def generate_fallback_text (decisions : List ItemDecision) : String :=
  if decisions = [] then "No items detected. Please try uploading a photo."
  else sanitize_text (String.intercalate " | " (specFallbackSegments decisions))

/-- The greeting lists of the three personality templates
(src/backend/routes/chatbot.py lines 49-77). -/
def tGreeting (vp : String) : List String :=
  if vp = "enthusiastic" then ["Fantastic!", "Amazing!", "Incredible!", "Outstanding!"]
  else if vp = "educational" then
    ["Let me analyze this for you.", "I\x27ll help you sort these items correctly.",
     "Here\x27s what I found:"]
  else ["Great!", "Awesome!", "Perfect!", "Excellent!"]

/-- The item_intro template of each personality, with {count} and
{plural} substituted. -/
def tItemIntro (vp : String) (count : Nat) (plural : String) : String :=
  if vp = "enthusiastic" then
    "I detected " ++ toString count ++ " amazing item" ++ plural ++ " in your photo"
  else if vp = "educational" then
    "I\x27ve identified " ++ toString count ++ " item" ++ plural ++ " in your image"
  else "I found " ++ toString count ++ " item" ++ plural ++ " in your image"

/-- The bin_decision template of each personality, with {item}, {bin}
and {explanation} substituted. -/
def tBinDecision (vp item bin explanation : String) : String :=
  if vp = "enthusiastic" then
    "This " ++ item ++ " belongs in the " ++ bin ++ " bin! Here\x27s why: " ++ explanation
  else if vp = "educational" then
    "The " ++ item ++ " should be placed in the " ++ bin ++ " bin. The reasoning is: " ++ explanation
  else "This " ++ item ++ " goes in the " ++ bin ++ " bin because " ++ explanation

/-- The eco_tip_intro phrase of each personality. -/
def tEcoIntro (vp : String) : String :=
  if vp = "enthusiastic" then "Get this exciting fact:"
  else if vp = "educational" then "Additional information:"
  else "Here\x27s a fun fact:"

/-- The closing lists of the three personality templates. -/
def tClosing (vp : String) : List String :=
  if vp = "enthusiastic" then
    ["You\x27re absolutely crushing it for the environment! 🌟",
     "This is how we save the planet! 🚀", "You\x27re an eco-hero! 💚"]
  else if vp = "educational" then
    ["Proper sorting contributes to environmental sustainability.",
     "Thank you for taking the time to sort correctly.",
     "Your efforts help reduce waste and pollution."]
  else
    ["Every small action counts towards a greener planet! 🌱",
     "You\x27re making a difference! 🌍", "Keep up the great work! ♻️"]

/-- Model of random.choice on a fixed non-empty list: selection by an
arbitrary index supplied as a parameter. -/
def pickChoice (xs : List String) (i : Nat) : String := xs.getD (i % xs.length) ""

/-- generate_conversational_text (src/backend/routes/chatbot.py lines
41-119): greeting, item-count introduction, one personality-styled
sentence per decision with an optional eco-tip sentence, closing; the
parts are joined with spaces and sanitized.  The two random.choice calls
are modelled by the index parameters gIdx and cIdx.  An unknown
personality falls back to the friendly template via dict.get. -/
def generate_conversational_text (decisions : List ItemDecision) (vp : String)
    (includeEcoTips : Bool) (gIdx cIdx : Nat) : String :=
  if decisions = [] then
    "I don\x27t see any items to analyze. Please try uploading a photo!"
  else
    let greeting := pickChoice (tGreeting vp) gIdx
    let count := decisions.length
    let plural := if count > 1 then "s" else ""
    let decisionParts := decisions.flatMap (fun d =>
      let itemText := tBinDecision vp d.label (binDisplay d.bin) d.explanation
      if includeEcoTips && d.eco_tip ≠ "" then
        [itemText, tEcoIntro vp ++ " " ++ d.eco_tip]
      else [itemText])
    let closing := pickChoice (tClosing vp) cIdx
    let parts := greeting :: tItemIntro vp count plural :: decisionParts ++ [closing]
    sanitize_text (String.intercalate " " parts)

/-- ChatbotRequest (src/backend/schemas.py lines 50-53). -/
structure ChatbotRequest where
  decisions : List ItemDecision
  voice_personality : Option String
  include_eco_tips : Bool

/-- ChatbotResponse (src/backend/schemas.py lines 56-60). -/
structure ChatbotResponse where
  audio_url : Option String
  conversational_text : String
  fallback_text : String
  voice_personality : String
deriving DecidableEq, Repr

/-- The in-place sanitization of one decision in speak_decisions
(src/backend/routes/chatbot.py lines 157-160): label, explanation and
eco_tip are sanitized; bin is left as is. -/
def sanitizeDecision (d : ItemDecision) : ItemDecision :=
  { label := sanitize_text d.label
    bin := d.bin
    explanation := sanitize_text d.explanation
    eco_tip := sanitize_text d.eco_tip }

/-- The body of the `try` in speak_decisions
(src/backend/routes/chatbot.py lines 151-193): the two validations raise
HTTPException(400); then decisions are sanitized, the personality
validated (unknown values coerced to "friendly"), both texts generated,
and the TTS call made under its own try/except (a TTS exception leaves
audio_url as None).  Returns the would-be response or the raised
exception, together with whether the Speech Gateway was invoked. -/
def speakBody (req : ChatbotRequest) (tts : Except Unit (Option String))
    (gIdx cIdx : Nat) : Except PyErr ChatbotResponse × Bool :=
  if req.decisions = [] then
    (.error (.httpExc 400 "" "No decisions provided"), false)
  else if req.decisions.length > 10 then
    (.error (.httpExc 400 "" "Too many items (max 10)"), false)
  else
    let ds := req.decisions.map sanitizeDecision
    let validPersonalities := ["friendly", "enthusiastic", "educational"]
    let vp := match req.voice_personality with
      | some v => if validPersonalities.contains v then v else "friendly"
      | none => "friendly"
    let conversational := generate_conversational_text ds vp req.include_eco_tips gIdx cIdx
    let fallback := generate_fallback_text ds
    let audio : Option String := match tts with
      | .ok a => a
      | .error _ => none
    (.ok { audio_url := audio, conversational_text := conversational,
           fallback_text := fallback, voice_personality := vp }, true)

/-- speak_decisions (src/backend/routes/chatbot.py lines 147-200): the
try body above, wrapped in `except Exception as exc: raise
HTTPException(status_code=500, detail="Failed to generate speech")`.
Because fastapi.HTTPException is an Exception subclass, the 400s raised
by the validations inside the try are also caught here and replaced by
the 500. -/
def speak_decisions (req : ChatbotRequest) (tts : Except Unit (Option String))
    (gIdx cIdx : Nat) : Except (Nat × String) ChatbotResponse × Bool :=
  match speakBody req tts gIdx cIdx with
  | (.ok r, called) => (.ok r, called)
  | (.error _, called) => (.error (500, "Failed to generate speech"), called)

/-! ## Helper lemmas about sanitize_text -/

theorem dropWhile_head?_false (p : Char → Bool) (l : List Char) :
    ∀ c, (l.dropWhile p).head? = some c → p c = false := by
  induction l with
  | nil => intro c h; simp [List.dropWhile] at h
  | cons a t ih =>
    intro c h
    cases hp : p a with
    | true => rw [List.dropWhile_cons_of_pos hp] at h; exact ih c h
    | false =>
      rw [List.dropWhile_cons_of_neg (by simp [hp])] at h
      simp at h; rw [← h]; exact hp

theorem dropWhile_of_head?_false (p : Char → Bool) (l : List Char)
    (h : ∀ c, l.head? = some c → p c = false) : l.dropWhile p = l := by
  cases l with
  | nil => rfl
  | cons a t => rw [List.dropWhile_cons_of_neg (by simp [h a rfl])]

theorem mem_of_mem_dropWhile (p : Char → Bool) (l : List Char) (a : Char)
    (h : a ∈ l.dropWhile p) : a ∈ l :=
  (List.dropWhile_sublist p).mem h

theorem length_dropWhile_le2 (p : Char → Bool) (l : List Char) :
    (l.dropWhile p).length ≤ l.length :=
  (List.dropWhile_sublist p).length_le

theorem mem_of_mem_stripList (l : List Char) (a : Char) (h : a ∈ stripList l) : a ∈ l := by
  unfold stripList at h
  rw [List.mem_reverse] at h
  have h2 := mem_of_mem_dropWhile _ _ _ h
  rw [List.mem_reverse] at h2
  exact mem_of_mem_dropWhile _ _ _ h2

theorem length_stripList_le (l : List Char) : (stripList l).length ≤ l.length := by
  unfold stripList
  rw [List.length_reverse]
  calc ((l.dropWhile isPyWs).reverse.dropWhile isPyWs).length
      ≤ (l.dropWhile isPyWs).reverse.length := length_dropWhile_le2 _ _
    _ = (l.dropWhile isPyWs).length := List.length_reverse _
    _ ≤ l.length := length_dropWhile_le2 _ _

theorem stripList_head?_false (l : List Char) :
    ∀ c, (stripList l).head? = some c → isPyWs c = false := by
  intro c h
  unfold stripList at h
  set d := l.dropWhile isPyWs with hd
  set r := d.reverse.dropWhile isPyWs with hr
  -- r.reverse is a prefix of d
  have hsplit : d.reverse.takeWhile isPyWs ++ r = d.reverse := List.takeWhile_append_dropWhile isPyWs d.reverse
  have hd2 : d = r.reverse ++ (d.reverse.takeWhile isPyWs).reverse := by
    have := congrArg List.reverse hsplit
    rw [List.reverse_append, List.reverse_reverse] at this
    exact this.symm
  cases hrr : r.reverse with
  | nil => rw [hrr] at h; simp at h
  | cons x xs =>
    rw [hrr] at h
    simp at h
    have hdhead : d.head? = some x := by rw [hd2, hrr]; rfl
    have := dropWhile_head?_false isPyWs l x
    rw [← hd] at this
    rw [← h]
    exact this hdhead

theorem stripList_getLast?_false (l : List Char) :
    ∀ c, (stripList l).getLast? = some c → isPyWs c = false := by
  intro c h
  unfold stripList at h
  rw [← List.head?_reverse, List.reverse_reverse] at h
  exact dropWhile_head?_false isPyWs _ c h

theorem stripList_eq_self (l : List Char)
    (h1 : ∀ c, l.head? = some c → isPyWs c = false)
    (h2 : ∀ c, l.getLast? = some c → isPyWs c = false) : stripList l = l := by
  unfold stripList
  rw [dropWhile_of_head?_false isPyWs l h1]
  rw [dropWhile_of_head?_false isPyWs l.reverse (by intro c hc; rw [List.head?_reverse] at hc; exact h2 c hc)]
  exact List.reverse_reverse l

theorem stripList_idem (l : List Char) : stripList (stripList l) = stripList l :=
  stripList_eq_self _ (stripList_head?_false l) (stripList_getLast?_false l)

theorem sanitizeList_no_bad (cs : List Char) :
    ∀ c ∈ sanitizeList cs, badChar c = false := by
  intro c hc
  unfold sanitizeList at hc
  have h1 := mem_of_mem_stripList _ _ hc
  have h2 := List.mem_of_mem_take h1
  have h3 := List.of_mem_filter h2
  simpa using h3

theorem sanitizeList_length_le (cs : List Char) : (sanitizeList cs).length ≤ 1000 := by
  unfold sanitizeList
  calc (stripList ((cs.filter (fun c => !badChar c)).take 1000)).length
      ≤ ((cs.filter (fun c => !badChar c)).take 1000).length := length_stripList_le _
    _ ≤ 1000 := List.length_take_le 1000 _

theorem sanitizeList_idem (cs : List Char) :
    sanitizeList (sanitizeList cs) = sanitizeList cs := by
  have hfilter : (sanitizeList cs).filter (fun c => !badChar c) = sanitizeList cs :=
    List.filter_eq_self.mpr (by intro a ha; simpa using sanitizeList_no_bad cs a ha)
  have htake : (sanitizeList cs).take 1000 = sanitizeList cs :=
    List.take_of_length_le (sanitizeList_length_le cs)
  have hstrip : stripList (sanitizeList cs) = sanitizeList cs := by
    unfold sanitizeList
    exact stripList_idem _
  calc sanitizeList (sanitizeList cs)
      = stripList (((sanitizeList cs).filter (fun c => !badChar c)).take 1000) := rfl
    _ = stripList ((sanitizeList cs).take 1000) := by rw [hfilter]
    _ = stripList (sanitizeList cs) := by rw [htake]
    _ = sanitizeList cs := hstrip

theorem sanitize_text_idem (s : String) :
    sanitize_text (sanitize_text s) = sanitize_text s := by
  unfold sanitize_text
  exact congrArg String.mk (sanitizeList_idem s.data)

theorem sanitizeList_eq_self (cs : List Char)
    (h1 : cs.filter (fun c => !badChar c) = cs)
    (h2 : cs.length ≤ 1000)
    (h3 : ∀ c, cs.head? = some c → isPyWs c = false)
    (h4 : ∀ c, cs.getLast? = some c → isPyWs c = false) :
    sanitizeList cs = cs := by
  unfold sanitizeList
  rw [h1, List.take_of_length_le h2]
  exact stripList_eq_self cs h3 h4

/-! ## Helper lemmas for the claim theorems -/

/-- A string is untouched by sanitize_text: no sanitized characters, at
most 1000 characters, and no leading or trailing whitespace. -/
def cleanForSanitize (s : String) : Prop :=
  s.data.filter (fun c => !badChar c) = s.data ∧
  s.data.length ≤ 1000 ∧
  s.data.head?.all (fun c => !isPyWs c) = true ∧
  s.data.getLast?.all (fun c => !isPyWs c) = true

instance (s : String) : Decidable (cleanForSanitize s) := by
  unfold cleanForSanitize; infer_instance

theorem sanitize_text_eq_self (s : String) (h : cleanForSanitize s) :
    sanitize_text s = s := by
  obtain ⟨h1, h2, h3, h4⟩ := h
  have e3 : ∀ c, s.data.head? = some c → isPyWs c = false := by
    intro c hc; rw [hc] at h3; simpa using h3
  have e4 : ∀ c, s.data.getLast? = some c → isPyWs c = false := by
    intro c hc; rw [hc] at h4; simpa using h4
  show String.mk (sanitizeList s.data) = s
  rw [sanitizeList_eq_self s.data h1 h2 e3 e4]

theorem resultsWithFallback_ne_nil (xs : List JVal) : resultsWithFallback xs ≠ [] := by
  unfold resultsWithFallback
  by_cases h : collectDecisions xs = [] <;> simp [h]

theorem reasoningTryBody_ok_ne_nil (data : JVal) (r : List ItemDecision)
    (h : reasoningTryBody data = .ok r) : r ≠ [] := by
  unfold reasoningTryBody at h
  repeat' split at h
  all_goals simp at h
  rw [← h]
  exact resultsWithFallback_ne_nil _

theorem parseReasoning_ok_ne_nil (data : JVal) (r : List ItemDecision)
    (h : parseReasoning data = .ok r) : r ≠ [] := by
  unfold parseReasoning at h
  split at h
  next rr heq =>
    simp at h
    rw [← h]
    exact reasoningTryBody_ok_ne_nil data rr heq
  next e heq => simp at h
  next e heq h2 h3 => simp at h

theorem get_reasoned_ok_ne_nil (items : List String) (z : Option String)
    (keyPresent : Bool) (outcome : ORCallOutcome) (res : List ItemDecision)
    (h : get_reasoned_decisions items z keyPresent outcome = .ok res) : res ≠ [] := by
  unfold get_reasoned_decisions at h
  repeat' split at h
  all_goals first
    | exact parseReasoning_ok_ne_nil _ _ h
    | simp at h

theorem pyFloat_err (v : JVal) (e : PyErr) (h : pyFloat v = .error e) :
    e = .valueError ∨ e = .typeError := by
  unfold pyFloat at h
  cases v <;> simp_all
  next s =>
    split at h
    · simp at h
    · simp at h; rw [← h]; simp

theorem parseDetection_obj_err (kvs : List (String × JVal)) (e : PyErr)
    (h : parseDetection (.jobj kvs) = .error e) : e = .valueError ∨ e = .typeError := by
  rw [show parseDetection (.jobj kvs) =
      (match pyFloat (jGet kvs "confidence" (.jnum 0)) with
       | .error e => .error e
       | .ok confidence =>
         match mkItemDetection (pyStr (jGet kvs "label" (.jstr "unknown"))) confidence with
         | some d => .ok d
         | none => .error .valueError) from rfl] at h
  cases hf : pyFloat (jGet kvs "confidence" (.jnum 0)) with
  | error e2 =>
    rw [hf] at h; simp at h; rw [← h]; exact pyFloat_err _ _ hf
  | ok q =>
    rw [hf] at h
    simp only [] at h
    cases hm : mkItemDetection (pyStr (jGet kvs "label" (.jstr "unknown"))) q with
    | some d => rw [hm] at h; simp at h
    | none => rw [hm] at h; simp at h; rw [← h]; simp

theorem collectDetections_all_obj (xs : List JVal) (h : ∀ x ∈ xs, x.isObj = true) :
    collectDetections xs = .ok (xs.filterMap (fun x => (parseDetection x).toOption)) := by
  induction xs with
  | nil => rfl
  | cons x rest ih =>
    have hx : x.isObj = true := h x (by simp)
    have hr := ih (fun y hy => h y (by simp [hy]))
    cases x <;> simp [JVal.isObj] at hx
    next kvs =>
    unfold collectDetections
    cases hp : parseDetection (.jobj kvs) with
    | ok d => simp [List.filterMap_cons, hp, Except.toOption, hr]
    | error e =>
      rcases parseDetection_obj_err kvs e hp with he | he <;> subst he <;>
        simp [List.filterMap_cons, hp, Except.toOption, hr]

/-- The reasoning-endpoint message content used to exhibit an
unvalidated bin value: a single decision whose bin is "lava". -/
def c1Content : String :=
  "[\x7b\x22label\x22:\x22x\x22,\x22bin\x22:\x22lava\x22,\x22explanation\x22:\x22e\x22,\x22eco_tip\x22:\x22t\x22\x7d]"

/-- C1: the claim that every ItemDecision returned by classify has an
enumerated bin is violated: on a 200 response whose content names the
bin "lava", get_reasoned_decisions returns that decision unchanged —
the parsing boundary performs no rejection or coercion of the bin
field. -/
theorem c1_bin_not_validated :
    get_reasoned_decisions ["x"] none true (.resp 200 (some (mkORData (.jstr c1Content))))
      = .ok [{ label := "x", bin := "lava", explanation := "e", eco_tip := "t" }] ∧
    ¬ ("lava" ∈ enumeratedBins) := by
  constructor
  · rfl
  · decide

/-- C3: when the response body lacks a (non-empty) choices key, the
caller does not see the reasoning_error condition: the HTTPException
carrying it is swallowed by the blanket `except Exception` and replaced
by 502/parse_error "Bad reasoning response". -/
theorem c3_structural_error_masked :
    parseReasoning (.jobj []) = .error ⟨502, "parse_error", "Bad reasoning response"⟩ ∧
    parseReasoning (.jobj [("choices", .jarr [])])
      = .error ⟨502, "parse_error", "Bad reasoning response"⟩ ∧
    "parse_error" ≠ "reasoning_error" := by
  exact ⟨rfl, rfl, by decide⟩

theorem reasoningTryBody_mkORData (content : JVal) :
    reasoningTryBody (mkORData content) =
      (match pyJsonLoads content with
       | .error e => .error e
       | .ok parsed =>
         match parsed with
         | .jarr xs => .ok (resultsWithFallback xs)
         | _ => .error (.httpExc 502 "parse_error" "Invalid response format from reasoning service")) := rfl

/-- C4: when the message content parses as a JSON list from which the
per-element loop extracts no valid decision, the parsing stage returns
exactly the single synthesized fallback decision; and classify never
returns an empty list (for any input, in particular non-empty ones). -/
theorem c4_fallback_never_empty (s : String) (xs : List JVal)
    (hparse : jsonLoads s = some (.jarr xs))
    (hempty : collectDecisions xs = []) :
    parseReasoning (mkORData (.jstr s)) = .ok [fallbackDecision] ∧
    (∀ (items : List String) (z : Option String) (keyPresent : Bool)
       (outcome : ORCallOutcome) (res : List ItemDecision),
       get_reasoned_decisions items z keyPresent outcome = .ok res → res ≠ []) := by
  constructor
  · unfold parseReasoning
    rw [reasoningTryBody_mkORData]
    simp only [pyJsonLoads, hparse]
    simp [resultsWithFallback, hempty]
  · exact fun items z k o res h => get_reasoned_ok_ne_nil items z k o res h

theorem c4_witness :
    jsonLoads "[]" = some (.jarr []) ∧ collectDecisions [] = [] ∧
    parseReasoning (mkORData (.jstr "[]")) = .ok [fallbackDecision] :=
  ⟨rfl, rfl, (c4_fallback_never_empty "[]" [] rfl rfl).1⟩

/-- C6: a non-empty choices list whose message content fails JSON
decoding makes classify fail with the parse_error condition (the
JSONDecodeError handler), not return the synthesized fallback
decision. -/
theorem c6_decode_failure_is_parse_error (s : String) (h : jsonLoads s = none) :
    parseReasoning (mkORData (.jstr s))
      = .error ⟨502, "parse_error", "Invalid JSON response from reasoning service"⟩ ∧
    ∀ r : List ItemDecision, parseReasoning (mkORData (.jstr s)) ≠ .ok r := by
  have hmain : parseReasoning (mkORData (.jstr s))
      = .error ⟨502, "parse_error", "Invalid JSON response from reasoning service"⟩ := by
    unfold parseReasoning
    rw [reasoningTryBody_mkORData]
    simp only [pyJsonLoads, h]
  exact ⟨hmain, fun r hr => by rw [hmain] at hr; exact absurd hr (by simp)⟩

theorem c6_witness :
    jsonLoads "not json" = none ∧
    parseReasoning (mkORData (.jstr "not json"))
      = .error ⟨502, "parse_error", "Invalid JSON response from reasoning service"⟩ :=
  ⟨rfl, (c6_decode_failure_is_parse_error "not json" rfl).1⟩

/-- C2: the claim that empty or >10 decision lists get HTTP 400 fails:
the HTTPException(400) raised by the validations inside the try is
caught by the endpoint's blanket `except Exception` and replaced by
HTTPException(500, "Failed to generate speech").  The part of the claim
that the Speech Gateway is never invoked does hold (the flag is
false). -/
theorem c2_validation_gives_500 (req : ChatbotRequest)
    (tts : Except Unit (Option String)) (gIdx cIdx : Nat)
    (h : req.decisions = [] ∨ req.decisions.length > 10) :
    speak_decisions req tts gIdx cIdx
      = (.error (500, "Failed to generate speech"), false) ∧
    (500 : Nat) ≠ 400 := by
  refine ⟨?_, by decide⟩
  unfold speak_decisions speakBody
  rcases h with h | h
  · rw [if_pos h]
  · have hne : ¬ req.decisions = [] := by
      intro h0; rw [h0] at h; simp at h
    rw [if_neg hne, if_pos h]

theorem c2_witness :
    ((List.replicate 11 (ItemDecision.mk "a" "trash" "e" "")).length > 10) ∧
    speak_decisions
        { decisions := List.replicate 11 (ItemDecision.mk "a" "trash" "e" ""),
          voice_personality := some "friendly", include_eco_tips := true }
        (.ok none) 0 0
      = (.error (500, "Failed to generate speech"), false) :=
  ⟨by decide,
   (c2_validation_gives_500
     { decisions := List.replicate 11 (ItemDecision.mk "a" "trash" "e" ""),
       voice_personality := some "friendly", include_eco_tips := true }
     (.ok none) 0 0 (Or.inr (by decide))).1⟩

/-- C7: sanitize_text is idempotent, its output contains no angle
brackets or quote characters, and its output has length at most 1000. -/
theorem c7_sanitize_properties (s : String) :
    sanitize_text (sanitize_text s) = sanitize_text s ∧
    (∀ c ∈ (sanitize_text s).data,
       c ≠ '<' ∧ c ≠ '>' ∧ c ≠ Char.ofNat 34 ∧ c ≠ Char.ofNat 39) ∧
    (sanitize_text s).length ≤ 1000 := by
  refine ⟨sanitize_text_idem s, ?_, ?_⟩
  · intro c hc
    have hb : badChar c = false := sanitizeList_no_bad s.data c hc
    unfold badChar at hb
    simp at hb
    exact ⟨hb.1.1.1, hb.1.1.2, hb.1.2, hb.2⟩
  · exact sanitizeList_length_le s.data

theorem c7_witness :
    ('a' ∈ (sanitize_text " a<b\x22 ").data) ∧
    ('a' ≠ '<' ∧ 'a' ≠ '>' ∧ 'a' ≠ Char.ofNat 34 ∧ 'a' ≠ Char.ofNat 39) :=
  ⟨by decide, (c7_sanitize_properties " a<b\x22 ").2.1 'a' (by decide)⟩

/-- C5 counterexample: for a decision whose label contains a double
quote, the fallback text's segment is not of the claimed form
"<label>: <bin name> bin. <explanation>" — the final sanitize_text pass
strips the quote from the label. -/
theorem c5_counterexample :
    generate_fallback_text [{ label := "a\x22b", bin := "trash", explanation := "e", eco_tip := "" }]
      = "ab: trash bin. e" ∧
    "ab: trash bin. e" ≠ "a\x22b" ++ ": " ++ binDisplay "trash" ++ " bin. " ++ "e" := by
  exact ⟨rfl, by decide⟩

/-- C5 amended: for decision lists of length 1 to 10 compose is total
(never raises), deterministic and personality-independent, and
fallback_text is the sanitize_text image of the " | "-join of one
segment per decision of the claimed form; when that joined text contains
no angle brackets or quotes, is at most 1000 characters and has no
surrounding whitespace, it is returned exactly. -/
theorem c5_fallback_segments (ds : List ItemDecision)
    (h1 : 1 ≤ ds.length) (h10 : ds.length ≤ 10) :
    generate_fallback_text ds
      = sanitize_text (String.intercalate " | " (specFallbackSegments ds)) ∧
    (cleanForSanitize (String.intercalate " | " (specFallbackSegments ds)) →
      generate_fallback_text ds = String.intercalate " | " (specFallbackSegments ds)) := by
  have hne : ¬ ds = [] := by
    intro h0; rw [h0] at h1; simp at h1
  constructor
  · unfold generate_fallback_text
    rw [if_neg hne]
  · intro hc
    unfold generate_fallback_text
    rw [if_neg hne]
    exact sanitize_text_eq_self _ hc

theorem c5_witness :
    (1 ≤ ([{ label := "cup", bin := "recycling", explanation := "Plastic.",
             eco_tip := "Rinse." }] : List ItemDecision).length) ∧
    generate_fallback_text [{ label := "cup", bin := "recycling", explanation := "Plastic.",
                              eco_tip := "Rinse." }]
      = String.intercalate " | " (specFallbackSegments
          [{ label := "cup", bin := "recycling", explanation := "Plastic.", eco_tip := "Rinse." }]) :=
  ⟨by decide,
   (c5_fallback_segments
     [{ label := "cup", bin := "recycling", explanation := "Plastic.", eco_tip := "Rinse." }]
     (by decide) (by decide)).2 (by decide)⟩

/-- The detection body of the spec's concrete example, with the
malformed third object whose confidence is the string "bad". -/
def c8ExampleObjects : List JVal :=
  [.jobj [("label", .jstr "plastic cup"), ("confidence", .jnum (mkRat 92 100))],
   .jobj [("label", .jstr "paper lid"), ("confidence", .jnum (mkRat 81 100))],
   .jobj [("label", .jstr "x"), ("confidence", .jstr "bad")]]

/-- C8 counterexample: a detection object with a missing label is not
dropped — the label defaults to "unknown" and the object is kept. -/
theorem c8_counterexample :
    inferFromData (.jobj [("objects", .jarr [.jobj [("confidence", .jnum (mkRat 1 2))]])])
      = .ok [{ label := "unknown", confidence := mkRat 1 2 }] ∧
    (Except.ok [{ label := "unknown", confidence := mkRat 1 2 }]
      : Except HttpFail (List ItemDetection)) ≠ .ok [] := by
  exact ⟨rfl, by simp⟩

/-- C8 amended: for the spec's concrete example the malformed third
object is dropped and exactly the first two detections are returned;
and in general, for a body whose objects are all mappings, the call
never fails as a whole: each mapping is kept (with label defaulting to
"unknown" and confidence to 0.0) exactly when its confidence coerces to
a float in [0, 1], and dropped otherwise. -/
theorem c8_detection_filtering :
    (inferFromData (.jobj [("objects", .jarr c8ExampleObjects)])
      = .ok [{ label := "plastic cup", confidence := mkRat 92 100 },
             { label := "paper lid", confidence := mkRat 81 100 }]) ∧
    (∀ xs : List JVal, (∀ x ∈ xs, x.isObj = true) →
      inferFromData (.jobj [("objects", .jarr xs)])
        = .ok (xs.filterMap (fun x => (parseDetection x).toOption))) := by
  constructor
  · rfl
  · intro xs h
    have hred : inferFromData (.jobj [("objects", .jarr xs)])
        = (match collectDetections xs with
           | .ok items => .ok items
           | .error _ =>
             .error ⟨500, "server_error", "Internal server error during image processing"⟩) := rfl
    rw [hred, collectDetections_all_obj xs h]

theorem c8_witness :
    (∀ x ∈ c8ExampleObjects, x.isObj = true) ∧
    inferFromData (.jobj [("objects", .jarr c8ExampleObjects)])
      = .ok (c8ExampleObjects.filterMap (fun x => (parseDetection x).toOption)) :=
  ⟨by decide, (c8_detection_filtering).2 c8ExampleObjects (by decide)⟩

/-- C9: the Speech Gateway never raises: a missing API key, transport
error or non-200 response produce a null result, and a 200 response
produces exactly the data:audio/mpeg;base64 URL of the base64-encoded
raw audio bytes. -/
theorem c9_tts_contract (text personality : String) (keyPresent : Bool)
    (outcome : TtsOutcome) :
    (keyPresent = false → get_tts_base64 text personality keyPresent outcome = none) ∧
    (outcome = .transportErr → get_tts_base64 text personality keyPresent outcome = none) ∧
    (∀ status content, outcome = .resp status content → status ≠ 200 →
      get_tts_base64 text personality keyPresent outcome = none) ∧
    (∀ content, keyPresent = true → outcome = .resp 200 content →
      get_tts_base64 text personality keyPresent outcome
        = some ("data:audio/mpeg;base64," ++ base64Encode content)) := by
  refine ⟨?_, ?_, ?_, ?_⟩
  · intro h; subst h; rfl
  · intro h; subst h
    cases keyPresent <;> rfl
  · intro status content h hs; subst h
    cases keyPresent with
    | false => rfl
    | true => simp [get_tts_base64, get_tts_audio_data, hs]
  · intro content hk ho; subst hk; subst ho
    simp [get_tts_base64, get_tts_audio_data]

theorem c9_witness :
    get_tts_base64 "hello" "friendly" true (.resp 200 [77, 97, 110])
      = some ("data:audio/mpeg;base64," ++ base64Encode [77, 97, 110]) :=
  (c9_tts_contract "hello" "friendly" true (.resp 200 [77, 97, 110])).2.2.2
    [77, 97, 110] rfl rfl

/-- C10: in the per-element parsing loop, every mapping element yields a
decision (missing keys default to the empty string, values are
stringified) and only non-mapping elements are skipped: the loop equals
filtering to the mappings and converting each. -/
theorem c10_mappings_never_skipped (xs : List JVal) :
    collectDecisions xs = (xs.filter JVal.isObj).map decisionFromMapping := by
  induction xs with
  | nil => rfl
  | cons x rest ih =>
    cases x <;> simp [collectDecisions, JVal.isObj, decisionFromMapping, List.filter_cons, ih]
